import Mathlib

/-!
Verification of the user-settings core of the BotTranslator repository:
the Settings Store (`database.py`), the Preferences Façade
(`user_preferences.py`), and the Catalog tables (`translator.py` and the
`constants` module).  Python strings become `String`, Python dicts of
string constants become association lists, the SQLAlchemy `user_settings`
table becomes a list of rows queried by `user_id`, and exceptions become
explicit error values.
-/

namespace BotTranslator

/-- A Python value as stored in the dynamically typed `speed` column and
passed to `float(...)`: a float (modelled as a rational), a string, or
`None`. -/
inductive PyVal where
  | pyFloat (q : Rat)
  | pyStr (s : String)
  | pyNone
  deriving DecidableEq, Repr

/-- The error taxonomy of the core: `storageError` stands for an
`SQLAlchemyError` raised by the persistence layer, `validationError` for
the `ValueError` raised by `float(...)` on a non-numeric input. -/
inductive DbError where
  | storageError
  | validationError
  deriving DecidableEq, Repr

/-- Python `str.upper()` restricted to the ASCII codes used as settings
codes: uppercase each character. -/
def pyUpper (s : String) : String :=
  ⟨s.data.map Char.toUpper⟩

/-- Digits of a decimal literal to a natural number (`none` when a
non-digit appears). -/
def digitsVal (l : List Char) : Option Nat :=
  l.foldl
    (fun acc c =>
      match acc with
      | none => none
      | some n => if c.isDigit then some (n * 10 + (c.toNat - 48)) else none)
    (some 0)

/-- The decimal core of Python `float(string)`: an optional sign, an
integer part and an optional fractional part, at least one digit overall.
Exponents, `inf`/`nan` and surrounding whitespace do not occur in this
program's inputs and are not modelled. -/
def parseDecimal (s : String) : Option Rat :=
  let chars := s.toList
  let signAndRest : Int × List Char :=
    match chars with
    | '-' :: r => (-1, r)
    | '+' :: r => (1, r)
    | r => (1, r)
  let sign := signAndRest.1
  let rest := signAndRest.2
  let intPart := rest.takeWhile Char.isDigit
  let rest2 := rest.dropWhile Char.isDigit
  match rest2 with
  | [] =>
      match digitsVal intPart with
      | some n => if intPart.isEmpty then none else some (sign * n)
      | none => none
  | '.' :: frac =>
      if intPart.isEmpty && frac.isEmpty then none
      else
        match digitsVal frac with
        | some f => some (sign * ((intPart.foldl (fun n c => n * 10 + (c.toNat - 48)) 0 : Nat)
            + (f : Rat) / ((10 : Rat) ^ frac.length)))
        | none => none
  | _ => none

/-- Python `float(value)`: a float converts to itself, a string goes
through the decimal parse (a failure is a `ValueError`), and `None`
raises a `TypeError`. `none` stands for the raised exception. -/
def pythonFloat (v : PyVal) : Option Rat :=
  match v with
  | .pyFloat q => some q
  | .pyStr s => parseDecimal s
  | .pyNone => none

/-- Python `dict.get(key)` over an association list of string constants. -/
def lookupTable (t : List (String × String)) (k : String) : Option String :=
  (t.find? (fun p => p.1 = k)).map (fun p => p.2)

/-- `get_available_languages` from `translator.py`: the static dictionary
of translation-language codes and display names. -/
def getAvailableLanguages : List (String × String) :=
  [("en", "English"), ("es", "Spanish"), ("fr", "French"), ("de", "German"),
   ("it", "Italian"), ("pt", "Portuguese"), ("ru", "Russian"),
   ("zh-CN", "Chinese (Simplified)"), ("ja", "Japanese"), ("ko", "Korean"),
   ("ar", "Arabic"), ("hi", "Hindi"), ("tr", "Turkish"), ("nl", "Dutch"),
   ("sv", "Swedish"), ("fi", "Finnish"), ("pl", "Polish"), ("uk", "Ukrainian")]

/-- Modelled from the spec: `constants.py` is imported by `database.py`
and `user_preferences.py` but is not part of the provided sources.  The
spec fixes the process-wide default source language as the sentinel
`"auto"`. -/
def DEFAULT_SOURCE_LANGUAGE : String := "auto"

/-- Modelled from the spec: default target translation language `"ru"`
(missing `constants.py`). -/
def DEFAULT_LANGUAGE : String := "ru"

/-- Modelled from the spec: default audio language `"ru"` (missing
`constants.py`). -/
def DEFAULT_AUDIO_LANGUAGE : String := "ru"

/-- Modelled from the spec: default voice type `"normal"` (missing
`constants.py`). -/
def DEFAULT_VOICE_TYPE : String := "normal"

/-- Modelled from the spec: default speech speed `1.0` (missing
`constants.py`). -/
def DEFAULT_SPEED : Rat := 1

/-- Modelled from the spec: the `VOICE_TYPES` dictionary of
`constants.py` (missing from the sources) maps the fixed vocabulary
`normal`, `slow`, `clear`, `emotional` to localized display labels; the
label for `normal` is the `Обычный` recorded as the column default in
`models.py`. -/
def VOICE_TYPES : List (String × String) :=
  [("normal", "Обычный"), ("slow", "Медленный"), ("clear", "Чёткий"),
   ("emotional", "Эмоциональный")]

/-- Modelled from the spec: the `AVAILABLE_AUDIO_LANGUAGES` dictionary of
`constants.py` (missing from the sources) maps audio-language codes to
localized names; `ru` maps to the `Русский` recorded as the column
default in `models.py`. -/
def AVAILABLE_AUDIO_LANGUAGES : List (String × String) :=
  [("ru", "Русский"), ("en", "Английский")]

/-- A user identifier as received from Telegram: an integer or a string.
Every store operation applies Python `str(...)` before using it. -/
inductive UserId where
  | ofNat (n : Nat)
  | ofString (s : String)
  deriving DecidableEq, Repr

/-- Python `str(user_id)`. -/
def UserId.toStr : UserId → String
  | .ofNat n => toString n
  | .ofString s => s

/-- A row of the `user_settings` table (`models.py`).  The `speed`
column is dynamically typed at the storage layer, hence `PyVal`. -/
structure UserSettingsRow where
  id : Nat
  user_id : String
  source_language : String
  language : String
  audio_language : String
  voice_type : String
  speed : PyVal
  source_language_name : String
  language_name : String
  audio_language_name : String
  voice_type_name : String
  deriving DecidableEq, Repr

/-- The `user_settings` table: a list of rows, queried by `user_id`. -/
abbrev Db := List UserSettingsRow

/-- `session.query(UserSettings).filter_by(user_id=...).first()`. -/
def queryByUserId (db : Db) (uid : String) : Option UserSettingsRow :=
  db.find? (fun r => r.user_id = uid)

/-- Mutate in place the first row whose `user_id` matches; a no-op when
no row matches (mirrors querying `.first()` and mutating the session
object). -/
def replaceFirst (db : Db) (uid : String) (f : UserSettingsRow → UserSettingsRow) : Db :=
  match db with
  | [] => []
  | r :: rest =>
      if r.user_id = uid then f r :: rest
      else r :: replaceFirst rest uid f

/-- The name-resolution idiom repeated through `database.py` and
`user_preferences.py`: `name = table.get(code)` followed by a truthiness
check, falling back to `code.upper()` when the code is absent (or the
looked-up name is falsy, i.e. the empty string). -/
def resolveName (table : List (String × String)) (code : String) : String :=
  match lookupTable table code with
  | some n => if n = "" then pyUpper code else n
  | none => pyUpper code

/-- The source-language variant of the idiom
(`update_user_source_language`, and the default paths): the sentinel
`auto` always yields the fixed label, any other code goes through the
table lookup with the uppercase fallback. -/
def resolveSourceLanguageName (table : List (String × String)) (code : String) : String :=
  if code = "auto" then "Автоопределение"
  else resolveName table code

/-- The fresh row built by `get_or_create_user_settings` when the query
finds nothing: process defaults with catalog-resolved names; `id` models
the autoincrement surrogate key. -/
def defaultRow (db : Db) (uid : String) : UserSettingsRow :=
  { id := db.length + 1
    user_id := uid
    source_language := DEFAULT_SOURCE_LANGUAGE
    language := DEFAULT_LANGUAGE
    audio_language := DEFAULT_AUDIO_LANGUAGE
    voice_type := DEFAULT_VOICE_TYPE
    speed := .pyFloat DEFAULT_SPEED
    source_language_name := resolveSourceLanguageName getAvailableLanguages DEFAULT_SOURCE_LANGUAGE
    language_name := resolveName getAvailableLanguages DEFAULT_LANGUAGE
    audio_language_name := resolveName AVAILABLE_AUDIO_LANGUAGES DEFAULT_AUDIO_LANGUAGE
    voice_type_name := resolveName VOICE_TYPES DEFAULT_VOICE_TYPE }

/-- `get_or_create_user_settings` (`database.py`): query by
`str(user_id)`; when absent, build a row from the process defaults with
catalog-resolved names and persist it; return a detached value-copy of
the row together with the resulting table. -/
def get_or_create_user_settings (db : Db) (user_id : UserId) :
    UserSettingsRow × Db :=
  let uid := user_id.toStr
  match queryByUserId db uid with
  | some settings => (settings, db)
  | none =>
      let settings := defaultRow db uid
      (settings, db ++ [settings])

/-- `update_user_language` (`database.py`): when the row exists, set
`language` and re-derive `language_name` from the translation-language
table with the uppercase fallback; a silent no-op when the row is
absent. -/
def update_user_language (db : Db) (user_id : UserId) (language_code : String) : Db :=
  match queryByUserId db user_id.toStr with
  | none => db
  | some _ =>
      replaceFirst db user_id.toStr (fun r =>
        { r with
            language := language_code
            language_name := resolveName getAvailableLanguages language_code })

/-- `update_user_audio_language` (`database.py`). -/
def update_user_audio_language (db : Db) (user_id : UserId) (language_code : String) : Db :=
  match queryByUserId db user_id.toStr with
  | none => db
  | some _ =>
      replaceFirst db user_id.toStr (fun r =>
        { r with
            audio_language := language_code
            audio_language_name := resolveName AVAILABLE_AUDIO_LANGUAGES language_code })

/-- `update_user_voice_type` (`database.py`). -/
def update_user_voice_type (db : Db) (user_id : UserId) (voice_type : String) : Db :=
  match queryByUserId db user_id.toStr with
  | none => db
  | some _ =>
      replaceFirst db user_id.toStr (fun r =>
        { r with
            voice_type := voice_type
            voice_type_name := resolveName VOICE_TYPES voice_type })

/-- `update_user_source_language` (`database.py`): the `auto` sentinel
yields the fixed label before any table lookup. -/
def update_user_source_language (db : Db) (user_id : UserId) (language_code : String) : Db :=
  match queryByUserId db user_id.toStr with
  | none => db
  | some _ =>
      replaceFirst db user_id.toStr (fun r =>
        { r with
            source_language := language_code
            source_language_name := resolveSourceLanguageName getAvailableLanguages language_code })

/-- `update_user_speed` (`database.py`): when the row exists, convert
the input with `float(...)` — a failure raises out of the function with
the session closed uncommitted, leaving the table unchanged — and only
then assign and commit.  The first component is the raised error, if
any. -/
def update_user_speed (db : Db) (user_id : UserId) (speed : PyVal) :
    Option DbError × Db :=
  match queryByUserId db user_id.toStr with
  | none => (none, db)
  | some _ =>
      match pythonFloat speed with
      | none => (some .validationError, db)
      | some q =>
          (none, replaceFirst db user_id.toStr (fun r => { r with speed := .pyFloat q }))

/-- The Preferences Façade (`user_preferences.py`): the in-memory mirror
of one user's settings.  After construction `speed` is always a float. -/
structure UserPreferences where
  user_id : UserId
  source_language : String
  language : String
  audio_language : String
  speed : Rat
  voice_type : String
  source_language_name : String
  language_name : String
  audio_language_name : String
  voice_type_name : String
  deriving DecidableEq, Repr

/-- `UserPreferences.__init__`: the outcome of the store's
`get_or_create_user_settings` call is passed in (`ok` the returned row,
`error` the raised exception).  On success every field is copied from the
row, with `speed` coerced by `float(...)` and the default substituted
when that raises; on any error the fallback block populates everything
from the process defaults with catalog-resolved names. -/
def UserPreferences.init (user_id : UserId)
    (storeResult : Except DbError UserSettingsRow) : UserPreferences :=
  match storeResult with
  | .ok settings =>
      { user_id := user_id
        source_language := settings.source_language
        language := settings.language
        audio_language := settings.audio_language
        speed := (pythonFloat settings.speed).getD DEFAULT_SPEED
        voice_type := settings.voice_type
        source_language_name := settings.source_language_name
        language_name := settings.language_name
        audio_language_name := settings.audio_language_name
        voice_type_name := settings.voice_type_name }
  | .error _ =>
      { user_id := user_id
        source_language := DEFAULT_SOURCE_LANGUAGE
        language := DEFAULT_LANGUAGE
        audio_language := DEFAULT_AUDIO_LANGUAGE
        speed := DEFAULT_SPEED
        voice_type := DEFAULT_VOICE_TYPE
        source_language_name := resolveSourceLanguageName getAvailableLanguages DEFAULT_SOURCE_LANGUAGE
        language_name := resolveName getAvailableLanguages DEFAULT_LANGUAGE
        audio_language_name := resolveName AVAILABLE_AUDIO_LANGUAGES DEFAULT_AUDIO_LANGUAGE
        voice_type_name := resolveName VOICE_TYPES DEFAULT_VOICE_TYPE }

/-- `UserPreferences.update_language`: call the store update first —
`dbFail` says whether the persistence layer raises `SQLAlchemyError`, in
which case the blanket `except` logs and nothing is touched — then
mirror the code and the re-derived name locally. -/
def UserPreferences.update_language (p : UserPreferences) (db : Db)
    (dbFail : Bool) (language_code : String) : UserPreferences × Db :=
  if dbFail then (p, db)
  else
    let db2 := update_user_language db p.user_id language_code
    ({ p with
        language := language_code
        language_name := resolveName getAvailableLanguages language_code }, db2)

/-- `UserPreferences.update_audio_language`. -/
def UserPreferences.update_audio_language (p : UserPreferences) (db : Db)
    (dbFail : Bool) (language_code : String) : UserPreferences × Db :=
  if dbFail then (p, db)
  else
    let db2 := update_user_audio_language db p.user_id language_code
    ({ p with
        audio_language := language_code
        audio_language_name := resolveName AVAILABLE_AUDIO_LANGUAGES language_code }, db2)

/-- `UserPreferences.update_speed`: convert to `float` first — a parse
failure is caught by the blanket `except`, so neither the store nor the
memory is touched — then write the float through and mirror it. -/
def UserPreferences.update_speed (p : UserPreferences) (db : Db)
    (dbFail : Bool) (speed : PyVal) : UserPreferences × Db :=
  match pythonFloat speed with
  | none => (p, db)
  | some q =>
      if dbFail then (p, db)
      else
        let db2 := (update_user_speed db p.user_id (.pyFloat q)).2
        ({ p with speed := q }, db2)

/-- `UserPreferences.update_source_language`. -/
def UserPreferences.update_source_language (p : UserPreferences) (db : Db)
    (dbFail : Bool) (language_code : String) : UserPreferences × Db :=
  if dbFail then (p, db)
  else
    let db2 := update_user_source_language db p.user_id language_code
    ({ p with
        source_language := language_code
        source_language_name := resolveSourceLanguageName getAvailableLanguages language_code }, db2)

/-- `UserPreferences.update_voice_type`: the local mirror uses
`VOICE_TYPES.get(voice_type, "Unknown")` — an explicit `"Unknown"`
default instead of the store's uppercase fallback. -/
def UserPreferences.update_voice_type (p : UserPreferences) (db : Db)
    (dbFail : Bool) (voice_type : String) : UserPreferences × Db :=
  if dbFail then (p, db)
  else
    let db2 := update_user_voice_type db p.user_id voice_type
    ({ p with
        voice_type := voice_type
        voice_type_name := (lookupTable VOICE_TYPES voice_type).getD "Unknown" }, db2)

/-- Number of rows stored for a given `user_id`. -/
def countRows (db : Db) (uid : String) : Nat :=
  db.countP (fun r => r.user_id = uid)

theorem queryByUserId_replaceFirst (db : Db) (uid : String)
    (f : UserSettingsRow → UserSettingsRow)
    (hf : ∀ r, (f r).user_id = r.user_id) (r : UserSettingsRow)
    (h : queryByUserId db uid = some r) :
    queryByUserId (replaceFirst db uid f) uid = some (f r) := by
  induction db with
  | nil => simp [queryByUserId] at h
  | cons a rest ih =>
      unfold queryByUserId at h ⊢
      by_cases ha : a.user_id = uid
      · rw [List.find?_cons_of_pos _ (by simp [ha])] at h
        cases h
        unfold replaceFirst
        simp only [ha, if_true]
        rw [List.find?_cons_of_pos _ (by simp [hf, ha])]
      · rw [List.find?_cons_of_neg _ (by simp [ha])] at h
        unfold replaceFirst
        simp only [ha, if_false]
        rw [List.find?_cons_of_neg _ (by simp [ha])]
        exact ih h

theorem queryByUserId_append_of_none (db l : Db) (uid : String)
    (h : queryByUserId db uid = none) :
    queryByUserId (db ++ l) uid = queryByUserId l uid := by
  unfold queryByUserId at *
  rw [List.find?_append, h, Option.none_or]

theorem countRows_eq_zero_of_none (db : Db) (uid : String)
    (h : queryByUserId db uid = none) :
    countRows db uid = 0 := by
  unfold queryByUserId at h
  unfold countRows
  exact List.countP_eq_zero.mpr (List.find?_eq_none.mp h)

theorem resolveName_of_lookup (t : List (String × String)) (code v : String)
    (h : lookupTable t code = some v) (hv : v ≠ "") :
    resolveName t code = v := by
  unfold resolveName
  rw [h]
  simp [hv]

theorem lookupTable_val_ne_empty (t : List (String × String)) (code v : String)
    (hall : ∀ q ∈ t, q.2 ≠ "") (h : lookupTable t code = some v) : v ≠ "" := by
  unfold lookupTable at h
  obtain ⟨p, hp, hpv⟩ := Option.map_eq_some'.mp h
  exact hpv ▸ hall p (List.mem_of_find?_eq_some hp)

/-- **C2.** For every user whose row exists in the store, a speed update
with a non-numeric value (such as the string `"fast"`) raises the
validation error from the `float(...)` conversion before any mutation:
the table comes back unchanged. -/
theorem speed_update_rejects_non_numeric (db : Db) (user_id : UserId) (v : PyVal)
    (hrow : ∃ r, queryByUserId db user_id.toStr = some r)
    (hv : pythonFloat v = none) :
    update_user_speed db user_id v = (some .validationError, db) := by
  obtain ⟨r, hr⟩ := hrow
  unfold update_user_speed
  rw [hr, hv]

/-- Witness for C2: a store holding the freshly created row for user
`"7"`, updated with the non-numeric string `"fast"`. -/
theorem speed_update_rejects_non_numeric_witness :
    update_user_speed [defaultRow [] "7"] (.ofString "7") (.pyStr "fast")
      = (some .validationError, [defaultRow [] "7"]) :=
  speed_update_rejects_non_numeric [defaultRow [] "7"] (.ofString "7") (.pyStr "fast")
    ⟨defaultRow [] "7", by decide⟩ (by decide)

/-- **C6.** Each of the five store update operations on a `user_id` with
no existing row is a silent no-op: the table is unchanged and no error is
raised, including a non-numeric speed value for a missing user. -/
theorem update_noop_on_missing_user (db : Db) (user_id : UserId) (code : String) (v : PyVal)
    (h : queryByUserId db user_id.toStr = none) :
    update_user_language db user_id code = db
    ∧ update_user_audio_language db user_id code = db
    ∧ update_user_voice_type db user_id code = db
    ∧ update_user_source_language db user_id code = db
    ∧ update_user_speed db user_id v = (none, db) := by
  refine ⟨?_, ?_, ?_, ?_, ?_⟩
  · unfold update_user_language; rw [h]
  · unfold update_user_audio_language; rw [h]
  · unfold update_user_voice_type; rw [h]
  · unfold update_user_source_language; rw [h]
  · unfold update_user_speed; rw [h]

/-- Witness for C6: the empty store, user `"9"`, the non-numeric speed
string `"fast"`. -/
theorem update_noop_on_missing_user_witness :
    update_user_language [] (.ofString "9") "fr" = []
    ∧ update_user_audio_language [] (.ofString "9") "fr" = []
    ∧ update_user_voice_type [] (.ofString "9") "slow" = []
    ∧ update_user_source_language [] (.ofString "9") "fr" = []
    ∧ update_user_speed [] (.ofString "9") (.pyStr "fast") = (none, []) := by
  have h := update_noop_on_missing_user [] (.ofString "9") "fr" (.pyStr "fast") (by decide)
  exact ⟨h.1, h.2.1, (update_noop_on_missing_user [] (.ofString "9") "slow" (.pyStr "fast") (by decide)).2.2.1, h.2.2.2.1, h.2.2.2.2⟩

/-- **C7.** Façade construction never fails: whatever error the store's
`get_or_create_user_settings` call raises, the constructor falls back to
an object populated entirely from the process-wide defaults with
catalog-resolved names. -/
theorem facade_fail_open (user_id : UserId) (e : DbError) :
    UserPreferences.init user_id (.error e)
      = { user_id := user_id
          source_language := "auto"
          language := "ru"
          audio_language := "ru"
          speed := 1
          voice_type := "normal"
          source_language_name := "Автоопределение"
          language_name := "Russian"
          audio_language_name := "Русский"
          voice_type_name := "Обычный" } := by
  rfl

/-- **C10.** The constructor coerces the stored speed with `float(...)`:
a numeric stored value comes through as that float, and a non-numeric or
`None` stored value is silently replaced by the default speed; the
in-memory speed is a float by construction. -/
theorem facade_speed_always_float (user_id : UserId) (r : UserSettingsRow) (q : Rat) :
    (pythonFloat r.speed = none →
      (UserPreferences.init user_id (.ok r)).speed = DEFAULT_SPEED)
    ∧ (pythonFloat r.speed = some q →
      (UserPreferences.init user_id (.ok r)).speed = q) := by
  constructor <;> intro h <;> simp [UserPreferences.init, h]

/-- Witness for C10: a stored row whose `speed` column holds the
non-numeric string `"abc"`; the constructed façade exposes the default
speed `1.0`. -/
theorem facade_speed_always_float_witness :
    (UserPreferences.init (.ofString "1")
      (.ok { defaultRow [] "1" with speed := .pyStr "abc" })).speed = DEFAULT_SPEED :=
  (facade_speed_always_float (.ofString "1")
    { defaultRow [] "1" with speed := .pyStr "abc" } 0).1 (by decide)

/-- **C5.** When the store call raises, every façade update method logs
and leaves both the in-memory object and the table unchanged (the
methods are total, so no exception reaches the caller); and
`update_speed` parses its argument to float before calling the store, so
a non-numeric argument leaves store and memory unchanged whatever the
store would have done. -/
theorem facade_update_failure_no_mutation (p : UserPreferences) (db : Db)
    (code : String) (v w : PyVal) (dbFail : Bool)
    (hv : pythonFloat v = none) :
    p.update_language db true code = (p, db)
    ∧ p.update_audio_language db true code = (p, db)
    ∧ p.update_source_language db true code = (p, db)
    ∧ p.update_voice_type db true code = (p, db)
    ∧ p.update_speed db true w = (p, db)
    ∧ p.update_speed db dbFail v = (p, db) := by
  refine ⟨rfl, rfl, rfl, rfl, ?_, ?_⟩
  · unfold UserPreferences.update_speed
    cases pythonFloat w <;> simp
  · unfold UserPreferences.update_speed
    rw [hv]

/-- Witness for C5: a defaulted façade for user `"3"` over the empty
store, with the non-numeric speed string `"fast"`. -/
theorem facade_update_failure_no_mutation_witness :
    (UserPreferences.init (.ofString "3") (.error .storageError)).update_speed [] false (.pyStr "fast")
      = (UserPreferences.init (.ofString "3") (.error .storageError), []) :=
  (facade_update_failure_no_mutation (UserPreferences.init (.ofString "3") (.error .storageError))
    [] "fr" (.pyStr "fast") (.pyFloat 2) false (by decide)).2.2.2.2.2

/-- **C4.** Name resolution in the store: each create/update path sets
the paired display-name field to the table's value when the code is
present and `uppercase(code)` when absent, and a source language of
`"auto"` always gets the fixed auto-detect label, whatever the table
holds. -/
theorem store_name_resolution :
    (∀ code v, lookupTable getAvailableLanguages code = some v →
        resolveName getAvailableLanguages code = v)
    ∧ (∀ code v, lookupTable AVAILABLE_AUDIO_LANGUAGES code = some v →
        resolveName AVAILABLE_AUDIO_LANGUAGES code = v)
    ∧ (∀ code v, lookupTable VOICE_TYPES code = some v →
        resolveName VOICE_TYPES code = v)
    ∧ (∀ table code, lookupTable table code = none →
        resolveName table code = pyUpper code)
    ∧ (∀ table, resolveSourceLanguageName table "auto" = "Автоопределение")
    ∧ (∀ db user_id code r, queryByUserId db user_id.toStr = some r →
        queryByUserId (update_user_language db user_id code) user_id.toStr
          = some { r with language := code
                          language_name := resolveName getAvailableLanguages code })
    ∧ (∀ db user_id code r, queryByUserId db user_id.toStr = some r →
        queryByUserId (update_user_audio_language db user_id code) user_id.toStr
          = some { r with audio_language := code
                          audio_language_name := resolveName AVAILABLE_AUDIO_LANGUAGES code })
    ∧ (∀ db user_id code r, queryByUserId db user_id.toStr = some r →
        queryByUserId (update_user_voice_type db user_id code) user_id.toStr
          = some { r with voice_type := code
                          voice_type_name := resolveName VOICE_TYPES code })
    ∧ (∀ db user_id code r, queryByUserId db user_id.toStr = some r →
        queryByUserId (update_user_source_language db user_id code) user_id.toStr
          = some { r with source_language := code
                          source_language_name := resolveSourceLanguageName getAvailableLanguages code })
    ∧ (∀ db user_id, queryByUserId db user_id.toStr = none →
        (get_or_create_user_settings db user_id).1.language_name
            = resolveName getAvailableLanguages DEFAULT_LANGUAGE
        ∧ (get_or_create_user_settings db user_id).1.source_language_name
            = resolveSourceLanguageName getAvailableLanguages DEFAULT_SOURCE_LANGUAGE
        ∧ (get_or_create_user_settings db user_id).1.audio_language_name
            = resolveName AVAILABLE_AUDIO_LANGUAGES DEFAULT_AUDIO_LANGUAGE
        ∧ (get_or_create_user_settings db user_id).1.voice_type_name
            = resolveName VOICE_TYPES DEFAULT_VOICE_TYPE) := by
  refine ⟨?_, ?_, ?_, ?_, ?_, ?_, ?_, ?_, ?_, ?_⟩
  · intro code v h
    exact resolveName_of_lookup _ _ _ h
      (lookupTable_val_ne_empty _ _ _ (by decide) h)
  · intro code v h
    exact resolveName_of_lookup _ _ _ h
      (lookupTable_val_ne_empty _ _ _ (by decide) h)
  · intro code v h
    exact resolveName_of_lookup _ _ _ h
      (lookupTable_val_ne_empty _ _ _ (by decide) h)
  · intro table code h
    unfold resolveName
    rw [h]
  · intro table
    rfl
  · intro db user_id code r h
    unfold update_user_language
    rw [h]
    exact queryByUserId_replaceFirst db user_id.toStr
      (fun s => { s with language := code
                         language_name := resolveName getAvailableLanguages code })
      (fun s => rfl) r h
  · intro db user_id code r h
    unfold update_user_audio_language
    rw [h]
    exact queryByUserId_replaceFirst db user_id.toStr
      (fun s => { s with audio_language := code
                         audio_language_name := resolveName AVAILABLE_AUDIO_LANGUAGES code })
      (fun s => rfl) r h
  · intro db user_id code r h
    unfold update_user_voice_type
    rw [h]
    exact queryByUserId_replaceFirst db user_id.toStr
      (fun s => { s with voice_type := code
                         voice_type_name := resolveName VOICE_TYPES code })
      (fun s => rfl) r h
  · intro db user_id code r h
    unfold update_user_source_language
    rw [h]
    exact queryByUserId_replaceFirst db user_id.toStr
      (fun s => { s with source_language := code
                         source_language_name := resolveSourceLanguageName getAvailableLanguages code })
      (fun s => rfl) r h
  · intro db user_id h
    unfold get_or_create_user_settings
    simp only [h]
    exact ⟨rfl, rfl, rfl, rfl⟩

/-- Witness for C4: the table value for `"fr"`, the uppercase fallback
for `"xx"`, and the fixed label for the `auto` sentinel. -/
theorem store_name_resolution_witness :
    resolveName getAvailableLanguages "fr" = "French"
    ∧ resolveName getAvailableLanguages "xx" = pyUpper "xx"
    ∧ resolveSourceLanguageName [] "auto" = "Автоопределение" :=
  ⟨store_name_resolution.1 "fr" "French" (by decide),
   store_name_resolution.2.2.2.1 getAvailableLanguages "xx" (by decide),
   store_name_resolution.2.2.2.2.1 []⟩

/-- **C8.** Write-then-read consistency: for a user whose row exists,
after `update_user_language` with `"fr"` a subsequent
`get_or_create_user_settings` returns `language = "fr"` and
`language_name = "French"`. -/
theorem write_then_read_language (db : Db) (user_id : UserId) (r : UserSettingsRow)
    (h : queryByUserId db user_id.toStr = some r) :
    (get_or_create_user_settings (update_user_language db user_id "fr") user_id).1.language = "fr"
    ∧ (get_or_create_user_settings (update_user_language db user_id "fr") user_id).1.language_name
        = "French" := by
  have h2 := queryByUserId_replaceFirst db user_id.toStr
    (fun s => { s with language := "fr"
                       language_name := resolveName getAvailableLanguages "fr" })
    (fun s => rfl) r h
  unfold update_user_language
  rw [h]
  unfold get_or_create_user_settings
  simp only [h2]
  exact ⟨trivial, by decide⟩

/-- Witness for C8: the store holding the freshly created row for user
`"5"`. -/
theorem write_then_read_language_witness :
    (get_or_create_user_settings
        (update_user_language [defaultRow [] "5"] (.ofString "5") "fr") (.ofString "5")).1.language
      = "fr"
    ∧ (get_or_create_user_settings
        (update_user_language [defaultRow [] "5"] (.ofString "5") "fr") (.ofString "5")).1.language_name
      = "French" :=
  write_then_read_language [defaultRow [] "5"] (.ofString "5") (defaultRow [] "5") (by decide)

/-- **C9.** Every store operation applies `str(...)` to the user id
before querying or storing, so an integer id and its string form address
the same single row: every operation gives identical results for two ids
with the same string form, `42` and `"42"` in particular, and the row a
lookup creates carries exactly the string form. -/
theorem store_user_id_normalization (db : Db) (uid1 uid2 : UserId)
    (code : String) (v : PyVal) (h : uid1.toStr = uid2.toStr) :
    (UserId.ofNat 42).toStr = (UserId.ofString "42").toStr
    ∧ get_or_create_user_settings db uid1 = get_or_create_user_settings db uid2
    ∧ update_user_language db uid1 code = update_user_language db uid2 code
    ∧ update_user_audio_language db uid1 code = update_user_audio_language db uid2 code
    ∧ update_user_voice_type db uid1 code = update_user_voice_type db uid2 code
    ∧ update_user_source_language db uid1 code = update_user_source_language db uid2 code
    ∧ update_user_speed db uid1 v = update_user_speed db uid2 v
    ∧ (get_or_create_user_settings db uid1).1.user_id = uid1.toStr := by
  refine ⟨rfl, ?_, ?_, ?_, ?_, ?_, ?_, ?_⟩
  · unfold get_or_create_user_settings; rw [h]
  · unfold update_user_language; rw [h]
  · unfold update_user_audio_language; rw [h]
  · unfold update_user_voice_type; rw [h]
  · unfold update_user_source_language; rw [h]
  · unfold update_user_speed; rw [h]
  · unfold get_or_create_user_settings
    cases hq : queryByUserId db uid1.toStr with
    | none => simp only [hq]; rfl
    | some r =>
        simp only [hq]
        unfold queryByUserId at hq
        have hp := List.find?_some hq
        exact of_decide_eq_true hp

/-- Witness for C9: updating via the string form `"42"` equals updating
via the integer form `42` on the store where `42`'s row was created. -/
theorem store_user_id_normalization_witness :
    update_user_language (get_or_create_user_settings [] (.ofNat 42)).2 (.ofString "42") "fr"
      = update_user_language (get_or_create_user_settings [] (.ofNat 42)).2 (.ofNat 42) "fr" :=
  (store_user_id_normalization (get_or_create_user_settings [] (.ofNat 42)).2
    (.ofString "42") (.ofNat 42) "fr" (.pyFloat 1) (by decide)).2.2.1

/-- **C1, counterexample.** The claim fails at `update_voice_type`: for
user `"1"` with an existing row, updating the voice type to the unknown
code `"xyz"` leaves the in-memory `voice_type_name` at the
`VOICE_TYPES.get(..., "Unknown")` default `"Unknown"`, while the store
writes the uppercase fallback `"XYZ"` — the mirror and the stored row
diverge. -/
theorem facade_voice_type_mirror_counterexample :
    (((UserPreferences.init (.ofString "1") (.ok (defaultRow [] "1"))).update_voice_type
        [defaultRow [] "1"] false "xyz").1.voice_type_name = "Unknown")
    ∧ ((queryByUserId (((UserPreferences.init (.ofString "1") (.ok (defaultRow [] "1"))).update_voice_type
        [defaultRow [] "1"] false "xyz").2) "1").map UserSettingsRow.voice_type_name
        = some "XYZ")
    ∧ ("Unknown" : String) ≠ "XYZ" := by
  decide

/-- **C1, amended.** After every successful façade update on a user
whose row exists, the in-memory field and display name match the stored
row for the language, audio-language, source-language and speed methods;
`update_voice_type` mirrors the code but resolves the in-memory name
with an explicit `"Unknown"` default while the store uses the uppercase
fallback, so the two agree only when the code is in the table. -/
theorem facade_store_mirror_after_update (p : UserPreferences) (db : Db)
    (code : String) (v : PyVal) (q : Rat) (r : UserSettingsRow)
    (h : queryByUserId db p.user_id.toStr = some r)
    (hv : pythonFloat v = some q) :
    ((queryByUserId (p.update_language db false code).2 p.user_id.toStr).map
        (fun s => (s.language, s.language_name))
      = some ((p.update_language db false code).1.language,
              (p.update_language db false code).1.language_name))
    ∧ ((queryByUserId (p.update_audio_language db false code).2 p.user_id.toStr).map
        (fun s => (s.audio_language, s.audio_language_name))
      = some ((p.update_audio_language db false code).1.audio_language,
              (p.update_audio_language db false code).1.audio_language_name))
    ∧ ((queryByUserId (p.update_source_language db false code).2 p.user_id.toStr).map
        (fun s => (s.source_language, s.source_language_name))
      = some ((p.update_source_language db false code).1.source_language,
              (p.update_source_language db false code).1.source_language_name))
    ∧ ((queryByUserId (p.update_speed db false v).2 p.user_id.toStr).map
        (fun s => s.speed)
      = some (.pyFloat (p.update_speed db false v).1.speed))
    ∧ ((queryByUserId (p.update_voice_type db false code).2 p.user_id.toStr).map
        (fun s => s.voice_type)
      = some ((p.update_voice_type db false code).1.voice_type))
    ∧ ((p.update_voice_type db false code).1.voice_type_name
        = (lookupTable VOICE_TYPES code).getD "Unknown")
    ∧ ((queryByUserId (p.update_voice_type db false code).2 p.user_id.toStr).map
        (fun s => s.voice_type_name)
      = some (resolveName VOICE_TYPES code)) := by
  have h1 := queryByUserId_replaceFirst db p.user_id.toStr
    (fun s => { s with language := code
                       language_name := resolveName getAvailableLanguages code })
    (fun s => rfl) r h
  have h2 := queryByUserId_replaceFirst db p.user_id.toStr
    (fun s => { s with audio_language := code
                       audio_language_name := resolveName AVAILABLE_AUDIO_LANGUAGES code })
    (fun s => rfl) r h
  have h3 := queryByUserId_replaceFirst db p.user_id.toStr
    (fun s => { s with source_language := code
                       source_language_name := resolveSourceLanguageName getAvailableLanguages code })
    (fun s => rfl) r h
  have h4 := queryByUserId_replaceFirst db p.user_id.toStr
    (fun s => { s with speed := PyVal.pyFloat q })
    (fun s => rfl) r h
  have h5 := queryByUserId_replaceFirst db p.user_id.toStr
    (fun s => { s with voice_type := code
                       voice_type_name := resolveName VOICE_TYPES code })
    (fun s => rfl) r h
  refine ⟨?_, ?_, ?_, ?_, ?_, ?_, ?_⟩
  · simp [UserPreferences.update_language, update_user_language, h, h1]
  · simp [UserPreferences.update_audio_language, update_user_audio_language, h, h2]
  · simp [UserPreferences.update_source_language, update_user_source_language, h, h3]
  · simp only [UserPreferences.update_speed, hv]
    simp [update_user_speed, h, pythonFloat, h4]
  · simp [UserPreferences.update_voice_type, update_user_voice_type, h, h5]
  · simp [UserPreferences.update_voice_type]
  · simp [UserPreferences.update_voice_type, update_user_voice_type, h, h5]

/-- Witness for the amended C1: user `"1"` with an existing row, the
known code `"slow"` and speed `2.0`. -/
theorem facade_store_mirror_after_update_witness :
    ((UserPreferences.init (.ofString "1") (.ok (defaultRow [] "1"))).update_voice_type
        [defaultRow [] "1"] false "slow").1.voice_type_name
      = (lookupTable VOICE_TYPES "slow").getD "Unknown" :=
  (facade_store_mirror_after_update
    (UserPreferences.init (.ofString "1") (.ok (defaultRow [] "1")))
    [defaultRow [] "1"] "slow" (.pyFloat 2) 2 (defaultRow [] "1")
    (by decide) (by decide)).2.2.2.2.2.1

/-- **C3, counterexample.** The claim fails on the display name of the
default target language: for the brand-new user `"42"` the store derives
`language_name` from `get_available_languages()`, whose entry for `"ru"`
is `"Russian"`, not the claimed `"Русский"`. -/
theorem get_or_create_defaults_counterexample :
    (get_or_create_user_settings [] (.ofString "42")).1.language_name = "Russian"
    ∧ ("Russian" : String) ≠ "Русский" := by
  decide

/-- **C3, amended.** Two consecutive `get_or_create_user_settings` calls
for the same brand-new user return identical rows, the second call
changes nothing, and exactly one row for that user exists afterwards;
the returned defaults are `auto`/`ru`/`ru`/`normal`/`1.0` with
`source_language_name` `"Автоопределение"` and `language_name`
`"Russian"` (the table's entry for `ru`). -/
theorem get_or_create_idempotent_defaults (db : Db) (user_id : UserId)
    (h : queryByUserId db user_id.toStr = none) :
    (get_or_create_user_settings (get_or_create_user_settings db user_id).2 user_id).1
      = (get_or_create_user_settings db user_id).1
    ∧ (get_or_create_user_settings (get_or_create_user_settings db user_id).2 user_id).2
      = (get_or_create_user_settings db user_id).2
    ∧ countRows (get_or_create_user_settings db user_id).2 user_id.toStr = 1
    ∧ (get_or_create_user_settings db user_id).1.source_language = "auto"
    ∧ (get_or_create_user_settings db user_id).1.language = "ru"
    ∧ (get_or_create_user_settings db user_id).1.audio_language = "ru"
    ∧ (get_or_create_user_settings db user_id).1.voice_type = "normal"
    ∧ (get_or_create_user_settings db user_id).1.speed = .pyFloat 1
    ∧ (get_or_create_user_settings db user_id).1.source_language_name = "Автоопределение"
    ∧ (get_or_create_user_settings db user_id).1.language_name = "Russian" := by
  have hq2 : queryByUserId (db ++ [defaultRow db user_id.toStr]) user_id.toStr
      = some (defaultRow db user_id.toStr) := by
    rw [queryByUserId_append_of_none db _ _ h]
    unfold queryByUserId
    exact List.find?_cons_of_pos _ (by simp [defaultRow])
  have hz : countRows db user_id.toStr = 0 := countRows_eq_zero_of_none db _ h
  have hcount : countRows (db ++ [defaultRow db user_id.toStr]) user_id.toStr = 1 := by
    unfold countRows at hz ⊢
    rw [List.countP_append, hz]
    simp [defaultRow]
  simp only [get_or_create_user_settings, h, hq2]
  exact ⟨trivial, trivial, hcount, rfl, rfl, rfl, rfl, rfl, rfl, rfl⟩

/-- Witness for the amended C3: the empty store and the new user
`"42"`. -/
theorem get_or_create_idempotent_defaults_witness :
    countRows (get_or_create_user_settings [] (.ofString "42")).2 "42" = 1 :=
  (get_or_create_idempotent_defaults [] (.ofString "42") (by decide)).2.2.1

end BotTranslator
